import Mathlib

/-!
Shallow embedding of `src/project2.ino` (an Arduino alcohol-detection sketch):
a setup routine followed by an infinite polling loop that reads an analog
sensor, compares the reading to the hard-coded threshold 400, drives an
active-low relay on pin 8, and prints two serial lines per iteration.

The embedding models one `loop` iteration as a pure function from the
process-wide state (the global `sensorValue` and the relay pin level) and the
value returned by `analogRead` to the successor state together with the list
of observable events (serial writes, digital writes, delays) the iteration
performs, in program order.
-/

namespace Project2

/-- Signal level of a digital pin, as used by `digitalWrite`. -/
inductive Level
  | HIGH
  | LOW
  deriving DecidableEq, Repr

/-- Classification of a reading, per the threshold comparison at line 23. -/
inductive Decision
  | SAFE
  | ALARM
  deriving DecidableEq, Repr

/-- Analog input channels; the sketch only uses `A0`. -/
inductive AnalogPin
  | A0
  deriving DecidableEq, Repr

/-- `const int MQ3_PIN = A0;` (line 3). -/
def MQ3_PIN : AnalogPin := AnalogPin.A0

/-- `const int RELAY_PIN = 8;` (line 4). -/
def RELAY_PIN : Int := 8

/-- A single serial write: `Serial.print` appends to the current line,
`Serial.println` appends and terminates the line. -/
inductive SerialOp
  | print (s : String)
  | println (s : String)
  deriving DecidableEq, Repr

/-- Observable events emitted by the sketch, in program order. -/
inductive Event
  | serialBegin (baud : Nat)
  | pinModeOutput (pin : Int)
  | analogRead (pin : AnalogPin) (value : Int)
  | digitalWrite (pin : Int) (level : Level)
  | serial (op : SerialOp)
  | delay (ms : Nat)
  deriving DecidableEq, Repr

/-- The process-wide mutable state: the global `int sensorValue` (line 5) and
the level last written to the relay pin. -/
structure MachineState where
  sensorValue : Int
  relay : Level
  deriving DecidableEq, Repr

/-- The event trace of `setup()` (lines 7-13), in program order. -/
def setupEvents : List Event :=
  [Event.serialBegin 9600,
   Event.pinModeOutput RELAY_PIN,
   Event.digitalWrite RELAY_PIN Level.HIGH,
   Event.delay 2000,
   Event.serial (SerialOp.println "Alcohol Detection System Initialized")]

/-- One iteration of `loop()` (lines 15-34), given the state on entry and the
value `r` returned by `analogRead(MQ3_PIN)`.  Returns the state on exit and
the events the iteration performs, in program order.  The float `voltage`
(line 17) is modelled over `ℚ`; it is computed and never used, exactly as in
the source. -/
def loopStep (s : MachineState) (r : Int) : MachineState × List Event :=
  let s1 : MachineState := { s with sensorValue := r }
  let voltage : ℚ := ((s1.sensorValue : ℚ) / 1023) * 5
  let pre : List Event :=
    [Event.analogRead MQ3_PIN r,
     Event.serial (SerialOp.print "MQ3 Value: "),
     Event.serial (SerialOp.println (toString s1.sensorValue))]
  if s1.sensorValue > 400 then
    ({ s1 with relay := Level.LOW },
     pre ++ [Event.digitalWrite RELAY_PIN Level.LOW,
             Event.serial (SerialOp.println "ALCOHOL DETECTED"),
             Event.delay 1000])
  else
    ({ s1 with relay := Level.HIGH },
     pre ++ [Event.digitalWrite RELAY_PIN Level.HIGH,
             Event.serial (SerialOp.println "SAFE - No Alcohol"),
             Event.delay 1000])

/-- The threshold decision embodied by the branch at line 23:
`ALARM` iff the reading is strictly greater than 400. -/
def decide (r : Int) : Decision :=
  if r > 400 then Decision.ALARM else Decision.SAFE

/-- The level the sketch writes to the relay pin for each decision:
`LOW` (active) on `ALARM` at line 25, `HIGH` (inactive) on `SAFE` at
line 29. -/
def actuateLevel : Decision → Level
  | Decision.ALARM => Level.LOW
  | Decision.SAFE => Level.HIGH

/-- Semantics of `digitalWrite` on the relay pin: the pin takes the written
level, whatever it held before. -/
def digitalWriteLevel (current : Level) (l : Level) : Level := l

/-- Actuation of one decision starting from relay level `current`. -/
def actuate (current : Level) (d : Decision) : Level :=
  digitalWriteLevel current (actuateLevel d)

/-- The classification line printed for each decision (lines 26 and 30). -/
def classString : Decision → String
  | Decision.ALARM => "ALCOHOL DETECTED"
  | Decision.SAFE => "SAFE - No Alcohol"

/-- The serial writes contained in an event trace, in order. -/
def serialOps (evs : List Event) : List SerialOp :=
  evs.filterMap fun e =>
    match e with
    | Event.serial op => some op
    | _ => none

/-- The digital writes contained in an event trace, in order. -/
def pinWrites (evs : List Event) : List (Int × Level) :=
  evs.filterMap fun e =>
    match e with
    | Event.digitalWrite p l => some (p, l)
    | _ => none

/-- The newline-terminated text lines produced by a list of serial writes,
given the (unterminated) buffer accumulated so far.  A trailing unterminated
buffer is not a line. -/
def linesOf : List SerialOp → String → List String
  | [], _ => []
  | SerialOp.print s :: ops, buf => linesOf ops (buf ++ s)
  | SerialOp.println s :: ops, buf => (buf ++ s) :: linesOf ops ""

/-- The last complete serial line of an event trace, if any: for one loop
iteration this is the classification line. -/
def classLineOf (evs : List Event) : Option String :=
  (linesOf (serialOps evs) "").getLast?

/-- The relay level after replaying the digital writes of a trace over an
optional initial level. -/
def relayAfter (init : Option Level) (evs : List Event) : Option Level :=
  evs.foldl
    (fun acc e =>
      match e with
      | Event.digitalWrite p l => if p = RELAY_PIN then some l else acc
      | _ => acc)
    init

/-- Coarse phases of the loop, for stating event-ordering properties. -/
inductive Kind
  | sample
  | report
  | actuate
  | wait
  | config
  deriving DecidableEq, Repr

/-- The phase an event belongs to. -/
def Event.kind : Event → Kind
  | Event.serialBegin _ => Kind.config
  | Event.pinModeOutput _ => Kind.config
  | Event.analogRead _ _ => Kind.sample
  | Event.digitalWrite _ _ => Kind.actuate
  | Event.serial _ => Kind.report
  | Event.delay _ => Kind.wait

/-- The phase sequence of one loop iteration. -/
def kindsOf (s : MachineState) (r : Int) : List Kind :=
  ((loopStep s r).2).map Event.kind

/-- Every event of phase `a` occurs strictly before every event of phase `b`
in the list `ks`. -/
def phaseBefore (ks : List Kind) (a b : Kind) : Prop :=
  ∀ i j : Fin ks.length, ks.get i = a → ks.get j = b → i.val < j.val

instance phaseBeforeDecidable (ks : List Kind) (a b : Kind) :
    Decidable (phaseBefore ks a b) := by
  unfold phaseBefore
  infer_instance

/-- The state after `setup()`: `sensorValue` holds its initializer 0
(line 5) and the relay pin holds the `HIGH` written at line 10. -/
def initialState : MachineState :=
  { sensorValue := 0, relay := Level.HIGH }

/-- The relay level observed after each successive iteration of the loop on
a list of readings. -/
def runLevels (s : MachineState) : List Int → List Level
  | [] => []
  | r :: rs => ((loopStep s r).1).relay :: runLevels ((loopStep s r).1) rs

/-- The classification line printed by each successive iteration of the loop
on a list of readings. -/
def runClassLines (s : MachineState) : List Int → List (Option String)
  | [] => []
  | r :: rs => classLineOf ((loopStep s r).2) :: runClassLines ((loopStep s r).1) rs

/-- The loop iteration of lines 15-34 with the dead voltage computation of
line 17 removed, and nothing else changed; used to show that the voltage
carries no control-flow weight. -/
def loopStepNoVoltage (s : MachineState) (r : Int) : MachineState × List Event :=
  let s1 : MachineState := { s with sensorValue := r }
  let pre : List Event :=
    [Event.analogRead MQ3_PIN r,
     Event.serial (SerialOp.print "MQ3 Value: "),
     Event.serial (SerialOp.println (toString s1.sensorValue))]
  if s1.sensorValue > 400 then
    ({ s1 with relay := Level.LOW },
     pre ++ [Event.digitalWrite RELAY_PIN Level.LOW,
             Event.serial (SerialOp.println "ALCOHOL DETECTED"),
             Event.delay 1000])
  else
    ({ s1 with relay := Level.HIGH },
     pre ++ [Event.digitalWrite RELAY_PIN Level.HIGH,
             Event.serial (SerialOp.println "SAFE - No Alcohol"),
             Event.delay 1000])

/-- Claim C1: the decision and actuation follow a strict greater-than
threshold at 400: a reading strictly above 400 is classified `ALARM` and
drives the relay pin to the active level `LOW`; a reading at or below 400 is
classified `SAFE` and drives the relay pin to the inactive level `HIGH`; at
the boundary, `decide 400 = SAFE` and `decide 401 = ALARM`. -/
theorem C1_strict_threshold_and_actuation (s : MachineState) (r : Int) :
    (400 < r → decide r = Decision.ALARM ∧ ((loopStep s r).1).relay = Level.LOW) ∧
    (r ≤ 400 → decide r = Decision.SAFE ∧ ((loopStep s r).1).relay = Level.HIGH) ∧
    decide 400 = Decision.SAFE ∧ decide 401 = Decision.ALARM := by
  refine ⟨fun h => ?_, fun h => ?_, by decide, by decide⟩
  · simp [decide, loopStep, h]
  · simp [decide, loopStep, not_lt.mpr h]

/-- Concrete instance of claim C1 at the boundary reading 401: it is
classified `ALARM` and the relay is driven `LOW`. -/
theorem C1_strict_threshold_and_actuation_witness :
    decide 401 = Decision.ALARM ∧ ((loopStep initialState 401).1).relay = Level.LOW :=
  (C1_strict_threshold_and_actuation initialState 401).1 (by decide)

/-- Claim C2: starting from the post-setup state, the reading sequence
`[100, 500, 400, 1023, 0]` yields the decision sequence
`[SAFE, ALARM, SAFE, ALARM, SAFE]`, the relay-level sequence
`[HIGH, LOW, HIGH, LOW, HIGH]`, and the classification lines
`"SAFE - No Alcohol"`, `"ALCOHOL DETECTED"`, `"SAFE - No Alcohol"`,
`"ALCOHOL DETECTED"`, `"SAFE - No Alcohol"`, in that order. -/
theorem C2_end_to_end_scenario :
    [(100 : Int), 500, 400, 1023, 0].map decide =
      [Decision.SAFE, Decision.ALARM, Decision.SAFE, Decision.ALARM, Decision.SAFE] ∧
    runLevels initialState [100, 500, 400, 1023, 0] =
      [Level.HIGH, Level.LOW, Level.HIGH, Level.LOW, Level.HIGH] ∧
    runClassLines initialState [100, 500, 400, 1023, 0] =
      [some "SAFE - No Alcohol", some "ALCOHOL DETECTED", some "SAFE - No Alcohol",
       some "ALCOHOL DETECTED", some "SAFE - No Alcohol"] := by
  refine ⟨by decide, by decide, by decide⟩

/-- Claim C3: initialization drives the relay pin to the inactive level
`HIGH` (so the output line is `HIGH` immediately after setup and before any
sample), the `HIGH` write precedes the fixed 2000 ms settle delay inside
setup, and setup performs no sample. -/
theorem C3_initialization :
    relayAfter none setupEvents = some Level.HIGH ∧
    setupEvents.get? 2 = some (Event.digitalWrite RELAY_PIN Level.HIGH) ∧
    setupEvents.get? 3 = some (Event.delay 2000) ∧
    (∀ e ∈ setupEvents, Event.kind e ≠ Kind.sample) := by decide

/-- Claim C4: one loop iteration is determined solely by the current
reading: from any two entry states (any earlier `sensorValue`, any prior
relay level) and the same reading, the iteration produces the same successor
state and the same observable events. -/
theorem C4_no_cross_iteration_memory (s t : MachineState) (r : Int) :
    loopStep s r = loopStep t r := by
  by_cases h : r > 400 <;> simp [loopStep, h]

/-- Claim C5 as stated is false: the raw-reading report line is emitted
before the actuation write.  At the concrete reading 100 the phase order
sample-actuate-report-wait does not hold for the iteration trace. -/
theorem C5_report_after_actuate_counterexample :
    ¬ (phaseBefore (kindsOf initialState 100) Kind.sample Kind.actuate ∧
       phaseBefore (kindsOf initialState 100) Kind.actuate Kind.report ∧
       phaseBefore (kindsOf initialState 100) Kind.report Kind.wait) := by decide

/-- Claim C5 amended: in every loop iteration the observable events occur in
the order sample, then the raw-reading report (two serial writes forming one
line), then actuation of the output line, then the classification report
line, then the fixed 1-second delay, which is the last event of the
iteration. -/
theorem C5_amended_event_order (s : MachineState) (r : Int) :
    kindsOf s r =
      [Kind.sample, Kind.report, Kind.report, Kind.actuate, Kind.report, Kind.wait] ∧
    ((loopStep s r).2).getLast? = some (Event.delay 1000) := by
  by_cases h : r > 400 <;> simp [kindsOf, loopStep, h, Event.kind, List.getLast?]

/-- Claim C6: every loop iteration emits exactly two serial lines: the line
`"MQ3 Value: "` followed by the raw reading value, and the classification
line for the decision (`"ALCOHOL DETECTED"` on `ALARM`, `"SAFE - No
Alcohol"` on `SAFE`). -/
theorem C6_two_report_lines (s : MachineState) (r : Int) :
    linesOf (serialOps ((loopStep s r).2)) "" =
      ["MQ3 Value: " ++ toString r, classString (decide r)] := by
  by_cases h : r > 400 <;> simp [loopStep, h, serialOps, linesOf, classString, decide]

/-- Claim C7: actuation is idempotent: for either decision, actuating twice
in a row leaves the output level exactly where the first actuation put it
(namely the level assigned to the decision), with no further effect. -/
theorem C7_actuate_idempotent (d : Decision) (c : Level) :
    actuate (actuate c d) d = actuate c d ∧ actuate c d = actuateLevel d :=
  ⟨rfl, rfl⟩

/-- Claim C8: the derived voltage of line 17 carries no control-flow weight:
the loop iteration with the voltage computation removed is observably equal
to the iteration as written, on every entry state and every reading. -/
theorem C8_voltage_no_control_flow (s : MachineState) (r : Int) :
    loopStep s r = loopStepNoVoltage s r := rfl

/-- Claim C9: actuation and reporting never disagree: within one iteration
the classification line is `"ALCOHOL DETECTED"` exactly when the relay pin
was driven `LOW`, and `"SAFE - No Alcohol"` exactly when it was driven
`HIGH`. -/
theorem C9_report_actuation_agree (s : MachineState) (r : Int) :
    (classLineOf ((loopStep s r).2) = some "ALCOHOL DETECTED" ↔
       pinWrites ((loopStep s r).2) = [(RELAY_PIN, Level.LOW)]) ∧
    (classLineOf ((loopStep s r).2) = some "SAFE - No Alcohol" ↔
       pinWrites ((loopStep s r).2) = [(RELAY_PIN, Level.HIGH)]) := by
  by_cases h : r > 400 <;>
    simp [loopStep, h, classLineOf, serialOps, pinWrites, linesOf, List.getLast?]

/-- Claim C10: the loop body is total over all integer readings, values
outside [0, 1023] included: every reading takes exactly one branch, with a
single relay write, readings strictly above 400 (however large) going to
`ALARM`/`LOW` and readings at or below 400 (negatives included) going to
`SAFE`/`HIGH`. -/
theorem C10_total_over_int (s : MachineState) (r : Int) :
    (400 < r ∧ pinWrites ((loopStep s r).2) = [(RELAY_PIN, Level.LOW)] ∧
       classLineOf ((loopStep s r).2) = some "ALCOHOL DETECTED") ∨
    (r ≤ 400 ∧ pinWrites ((loopStep s r).2) = [(RELAY_PIN, Level.HIGH)] ∧
       classLineOf ((loopStep s r).2) = some "SAFE - No Alcohol") := by
  by_cases h : r > 400
  · exact Or.inl ⟨h, by
      simp [loopStep, h, pinWrites, classLineOf, serialOps, linesOf, List.getLast?]⟩
  · exact Or.inr ⟨not_lt.mp h, by
      simp [loopStep, h, pinWrites, classLineOf, serialOps, linesOf, List.getLast?]⟩

end Project2
